import Mathlib

/-!
Verification development for the signal-scoring and confluence engine and the
streaming signal-transition detector of the repository.

The embedding models:
* `src/signal_generator.py` — `generate_signals` (per-row category scores,
  weighted total, direction threshold, strength) and `calculate_mtf_confluence`
  (timeframe-weighted confluence, trend consensus);
* `src/indicators.py` — the three price-action helpers that `generate_signals`
  calls (`detect_candlestick_patterns`, `detect_support_resistance`,
  `analyze_trend_structure`);
* `src/websocket_stream.py` — the per-candle emit transition of
  `MexcWebSocketStream.analyze_signals`, the bounded candle buffer
  (`collections.deque` with `maxlen`), and `MultiSymbolStream`
  subscription management.

Numeric cells are rationals; a pandas `NaN` (or an absent column) is modelled
as `none`, because every comparison against `NaN` in the source evaluates to
`False`, exactly as comparisons against `none` below.
-/

namespace TradingX

/-- A cell comparison `a > b` on optional numerics: `False` whenever either
side is `NaN`/absent, matching pandas comparison semantics. -/
def oGT : Option ℚ → Option ℚ → Bool
  | some a, some b => decide (b < a)
  | _, _ => false

/-- `a < b` on optional numerics, `False` on `NaN`/absent. -/
def oLT : Option ℚ → Option ℚ → Bool
  | some a, some b => decide (a < b)
  | _, _ => false

/-- `a ≥ b` on optional numerics, `False` on `NaN`/absent. -/
def oGE : Option ℚ → Option ℚ → Bool
  | some a, some b => decide (b ≤ a)
  | _, _ => false

/-- `a ≤ b` on optional numerics, `False` on `NaN`/absent. -/
def oLE : Option ℚ → Option ℚ → Bool
  | some a, some b => decide (a ≤ b)
  | _, _ => false

/-- Equality test on optional numerics, `False` on `NaN`/absent
(`NaN == x` is `False` in pandas). -/
def oEQ : Option ℚ → Option ℚ → Bool
  | some a, some b => decide (a = b)
  | _, _ => false

/-- Subtraction with `NaN` propagation. -/
def oSub : Option ℚ → Option ℚ → Option ℚ
  | some a, some b => some (a - b)
  | _, _ => none

/-- Scaling with `NaN` propagation. -/
def oMul (c : ℚ) : Option ℚ → Option ℚ
  | some a => some (c * a)
  | none => none

/-- Absolute value with `NaN` propagation. -/
def oAbs : Option ℚ → Option ℚ
  | some a => some |a|
  | none => none

/-- Pointwise maximum with `NaN` propagation (`df[[c1,c2]].max(axis=1)`). -/
def oMax : Option ℚ → Option ℚ → Option ℚ
  | some a, some b => some (max a b)
  | _, _ => none

/-- Pointwise minimum with `NaN` propagation. -/
def oMin : Option ℚ → Option ℚ → Option ℚ
  | some a, some b => some (min a b)
  | _, _ => none

/-- Division on optional numerics.  A zero denominator is mapped to `none`:
the only uses in the source compare the quotient with `< c`, and both a float
`inf`/`NaN` quotient and `none` make that comparison `False`. -/
def oDiv : Option ℚ → Option ℚ → Option ℚ
  | some a, some b => if b = 0 then none else some (a / b)
  | _, _ => none

/-- `np.clip x lo hi = min (max x lo) hi`. -/
def npClip (x lo hi : ℚ) : ℚ := min (max x lo) hi

/-- A pandas column: numeric (cells may be `NaN`), boolean, integer or
string valued. -/
inductive Col where
  | nums : List (Option ℚ) → Col
  | bools : List Bool → Col
  | ints : List ℤ → Col
  | strs : List String → Col
deriving DecidableEq

/-- Dict lookup by key equality (Python `d[k]` / `d.get(k)`). -/
def alookup {α : Type} : List (String × α) → String → Option α
  | [], _ => none
  | (k, v) :: t, n => if k = n then some v else alookup t n

/-- A DataFrame: a row count and an ordered association list of named
columns (pandas column labels are unique). -/
structure DataFrame where
  nrows : ℕ
  cols : List (String × Col)
deriving DecidableEq

/-- The empty frame. -/
def emptyDF : DataFrame := ⟨0, []⟩

/-- Column lookup (`df[name]` / `name in df.columns`). -/
def DataFrame.col (df : DataFrame) (name : String) : Option Col :=
  alookup df.cols name

/-- Column assignment `df[name] = c`: overwrite the existing binding, else
append a new column at the end. -/
def setBinding : List (String × Col) → String → Col → List (String × Col)
  | [], n, c => [(n, c)]
  | (m, d) :: t, n, c => if m = n then (n, c) :: t else (m, d) :: setBinding t n c

/-- `df[name] = c` at the frame level. -/
def DataFrame.setCol (df : DataFrame) (name : String) (c : Col) : DataFrame :=
  ⟨df.nrows, setBinding df.cols name c⟩

theorem alookup_setBinding_self (l : List (String × Col)) (n : String) (c : Col) :
    alookup (setBinding l n c) n = some c := by
  induction l with
  | nil => simp [setBinding, alookup]
  | cons p t ih =>
      obtain ⟨m, d⟩ := p
      by_cases h : m = n
      · simp [setBinding, h, alookup]
      · simp only [setBinding, h, if_false, alookup, ih]

theorem alookup_setBinding_ne (l : List (String × Col)) (n m : String) (c : Col)
    (h : m ≠ n) : alookup (setBinding l n c) m = alookup l m := by
  induction l with
  | nil => simp [setBinding, alookup, Ne.symm h]
  | cons p t ih =>
      obtain ⟨k, d⟩ := p
      by_cases hk : k = n
      · subst hk
        simp [setBinding, alookup, Ne.symm h]
      · simp only [setBinding, hk, if_false, alookup, ih]

theorem col_setCol_self (df : DataFrame) (n : String) (c : Col) :
    (df.setCol n c).col n = some c := by
  simp [DataFrame.col, DataFrame.setCol, alookup_setBinding_self]

theorem col_setCol_ne (df : DataFrame) (n m : String) (c : Col) (h : m ≠ n) :
    (df.setCol n c).col m = df.col m := by
  simp [DataFrame.col, DataFrame.setCol, alookup_setBinding_ne _ _ _ _ h]

theorem nrows_setCol (df : DataFrame) (n : String) (c : Col) :
    (df.setCol n c).nrows = df.nrows := rfl

/-- Numeric cell at row `i` of column `name`; `none` when the column is
absent, non-numeric, or the cell is `NaN`/out of range. -/
def numAt (df : DataFrame) (name : String) (i : ℕ) : Option ℚ :=
  match df.col name with
  | some (Col.nums xs) => (xs.get? i).getD none
  | _ => none

/-- Boolean cell at row `i` of column `name` (`False` when absent). -/
def boolAt (df : DataFrame) (name : String) (i : ℕ) : Bool :=
  match df.col name with
  | some (Col.bools xs) => (xs.get? i).getD false
  | _ => false

/-- `df[name].shift(k)` evaluated at row `i`: `NaN` for the first `k` rows. -/
def shiftAt (df : DataFrame) (name : String) (i k : ℕ) : Option ℚ :=
  if k ≤ i then numAt df name (i - k) else none

/-- `bool.astype(int)` as a rational. -/
def bi (b : Bool) : ℚ := if b then 1 else 0

/-- `name in df.columns`. -/
def hasCol (df : DataFrame) (name : String) : Bool := (df.col name).isSome

/-! ## Scoring engine (`generate_signals`, src/signal_generator.py lines 45-182)

Each category block mirrors one guarded block of the source.  A block whose
required columns are absent contributes `0`, exactly as the corresponding
`if '...' in df.columns` guard skips it; comparisons involving `NaN` cells
are `False` and likewise contribute `0`. -/

/-- Trend category score at row `i` (MACD cross, EMA order, ADX strength,
Parabolic SAR position; lines 49-74). -/
def trendScore (df : DataFrame) (i : ℕ) : ℚ :=
  let macd :=
    if hasCol df "MACD_12_26_9" && hasCol df "MACDs_12_26_9" then
      let macdBull := oGT (numAt df "MACD_12_26_9" i) (numAt df "MACDs_12_26_9" i) &&
        oLE (shiftAt df "MACD_12_26_9" i 1) (shiftAt df "MACDs_12_26_9" i 1)
      let macdBear := oLT (numAt df "MACD_12_26_9" i) (numAt df "MACDs_12_26_9" i) &&
        oGE (shiftAt df "MACD_12_26_9" i 1) (shiftAt df "MACDs_12_26_9" i 1)
      bi macdBull * 2 - bi macdBear * 2
    else 0
  let ema :=
    if hasCol df "EMA_20" && hasCol df "EMA_50" then
      bi (oGT (numAt df "EMA_20" i) (numAt df "EMA_50" i)) -
        bi (oLT (numAt df "EMA_20" i) (numAt df "EMA_50" i))
    else 0
  let adx :=
    if hasCol df "ADX_14" then bi (oGT (numAt df "ADX_14" i) (some 25)) * (1 / 2)
    else 0
  let psar :=
    if hasCol df "PSARl_0.02_0.2" && hasCol df "PSARs_0.02_0.2" then
      bi (oGT (numAt df "close" i) (numAt df "PSARl_0.02_0.2" i)) -
        bi (oLT (numAt df "close" i) (numAt df "PSARs_0.02_0.2" i))
    else 0
  macd + ema + adx + psar

/-- Momentum category score at row `i` (RSI zones and midline cross,
Williams %R, CCI; lines 80-102). -/
def momentumScore (df : DataFrame) (i : ℕ) : ℚ :=
  let rsi :=
    if hasCol df "RSI_14" then
      let over := bi (oLT (numAt df "RSI_14" i) (some 30)) * 2 -
        bi (oGT (numAt df "RSI_14" i) (some 70)) * 2
      let cross :=
        bi (oGT (numAt df "RSI_14" i) (some 50) &&
          oLE (shiftAt df "RSI_14" i 1) (some 50)) -
        bi (oLT (numAt df "RSI_14" i) (some 50) &&
          oGE (shiftAt df "RSI_14" i 1) (some 50))
      over + cross
    else 0
  let willr :=
    if hasCol df "WILLR_14" then
      bi (oLT (numAt df "WILLR_14" i) (some (-80))) -
        bi (oGT (numAt df "WILLR_14" i) (some (-20)))
    else 0
  let cci :=
    if hasCol df "CCI_14_0.015" then
      bi (oLT (numAt df "CCI_14_0.015" i) (some (-100))) -
        bi (oGT (numAt df "CCI_14_0.015" i) (some 100))
    else 0
  rsi + willr + cci

/-- Volume category score at row `i` (OBV five-row rise/fall, MFI zones;
lines 108-120). -/
def volumeScore (df : DataFrame) (i : ℕ) : ℚ :=
  let obv :=
    if hasCol df "OBV" then
      bi (oGT (numAt df "OBV" i) (shiftAt df "OBV" i 5)) -
        bi (oLT (numAt df "OBV" i) (shiftAt df "OBV" i 5))
    else 0
  let mfi :=
    if hasCol df "MFI_14" then
      bi (oLT (numAt df "MFI_14" i) (some 20)) -
        bi (oGT (numAt df "MFI_14" i) (some 80))
    else 0
  obv + mfi

/-- Character-list test that the second list begins with the first. -/
def charsStart : List Char → List Char → Bool
  | [], _ => true
  | _ :: _, [] => false
  | p :: ps, s :: ss => if p = s then charsStart ps ss else false

/-- Python `s.startswith(pre)`. -/
def strStarts (s pre : String) : Bool := charsStart pre.data s.data

/-- First column label starting with the given text (the source locates the
Bollinger band columns with `next(col for col in df.columns if
col.startswith(...))`). -/
def findColStarting (df : DataFrame) (s : String) : Option String :=
  (df.cols.find? (fun p => strStarts p.1 s)).map (fun p => p.1)

/-- Volatility category score at row `i` (Bollinger bands, Keltner
channels; lines 126-141). -/
def volatilityScore (df : DataFrame) (i : ℕ) : ℚ :=
  let bb :=
    match findColStarting df "BBL_", findColStarting df "BBU_" with
    | some lo, some hi =>
        bi (oLT (numAt df "close" i) (numAt df lo i)) -
          bi (oGT (numAt df "close" i) (numAt df hi i))
    | _, _ => 0
  let kc :=
    if hasCol df "KCLe_20_2" && hasCol df "KCUe_20_2" then
      bi (oLT (numAt df "close" i) (numAt df "KCLe_20_2" i)) -
        bi (oGT (numAt df "close" i) (numAt df "KCUe_20_2" i))
    else 0
  bb + kc

/-- Price-action category score at row `i` (engulfing ±2, hammer +1,
shooting star −1; lines 147-163).  The whole block is guarded by
`use_price_action`; a pattern column absent from the frame contributes `0`. -/
def priceActionScore (usePA : Bool) (df : DataFrame) (i : ℕ) : ℚ :=
  if usePA then
    bi (boolAt df "bullish_engulfing" i) * 2 - bi (boolAt df "bearish_engulfing" i) * 2 +
      bi (boolAt df "hammer" i) - bi (boolAt df "shooting_star" i)
  else 0

/-- Category weights (`indicator_weights`).  The source takes a dict and
reads each key with a per-key default equal to the default weight; the
structure holds the five effective values. -/
structure Weights where
  trend : ℚ
  momentum : ℚ
  volume : ℚ
  volatility : ℚ
  priceAction : ℚ
deriving DecidableEq

/-- The default weight set (lines 20-27). -/
def defaultWeights : Weights := ⟨3/10, 1/4, 1/5, 3/20, 1/10⟩

/-- `final_score` at row `i` (lines 166-172): the weighted total of the five
category scores. -/
def finalScore (w : Weights) (usePA : Bool) (df : DataFrame) (i : ℕ) : ℚ :=
  trendScore df i * w.trend + momentumScore df i * w.momentum +
    volumeScore df i * w.volume + volatilityScore df i * w.volatility +
    priceActionScore usePA df i * w.priceAction

/-- The decision threshold (line 175). -/
def signalThreshold : ℚ := 3/2

/-- `np.where(final_score > 1.5, 1, np.where(final_score < -1.5, -1, 0))`
(lines 176-177).  `1` is BUY, `-1` is SELL, `0` is HOLD. -/
def signalOf (fs : ℚ) : ℤ :=
  if fs > signalThreshold then 1 else if fs < -signalThreshold then -1 else 0

/-- `max_possible_score` (line 180). -/
def maxPossibleScore : ℚ := 10

/-- `signal_strength = np.clip(abs(final_score) / 10, 0, 1)`
(lines 181-182). -/
def strengthOf (fs : ℚ) : ℚ := npClip (|fs| / maxPossibleScore) 0 1

/-! ## Price-action helpers (src/indicators.py)

Each helper starts with `df = df.copy()` and returns the copy with new
columns; at the value level they are pure frame-to-frame functions. -/

/-- The raw cell list of a numeric column (empty when absent). -/
def colNums (df : DataFrame) (name : String) : List (Option ℚ) :=
  match df.col name with
  | some (Col.nums xs) => xs
  | _ => []

/-- `detect_candlestick_patterns` (src/indicators.py lines 92-136): body and
shadow geometry plus five pattern booleans. -/
def detect_candlestick_patterns (df : DataFrame) : DataFrame :=
  let n := df.nrows
  let mkN := fun (f : ℕ → Option ℚ) => Col.nums ((List.range n).map f)
  let mkB := fun (f : ℕ → Bool) => Col.bools ((List.range n).map f)
  let d1 := df.setCol "body_size"
    (mkN (fun i => oAbs (oSub (numAt df "close" i) (numAt df "open" i))))
  let d2 := d1.setCol "upper_shadow"
    (mkN (fun i => oSub (numAt d1 "high" i) (oMax (numAt d1 "open" i) (numAt d1 "close" i))))
  let d3 := d2.setCol "lower_shadow"
    (mkN (fun i => oSub (oMin (numAt d2 "open" i) (numAt d2 "close" i)) (numAt d2 "low" i)))
  let d4 := d3.setCol "total_range"
    (mkN (fun i => oSub (numAt d3 "high" i) (numAt d3 "low" i)))
  let d5 := d4.setCol "doji"
    (mkB (fun i =>
      oLT (oDiv (numAt d4 "body_size" i) (numAt d4 "total_range" i)) (some (1/10)) &&
        oGT (numAt d4 "total_range" i) (some 0)))
  let d6 := d5.setCol "hammer"
    (mkB (fun i =>
      oLT (oDiv (numAt d5 "body_size" i) (numAt d5 "total_range" i)) (some (3/10)) &&
        oGT (numAt d5 "lower_shadow" i) (oMul 2 (numAt d5 "body_size" i)) &&
        oLT (numAt d5 "upper_shadow" i) (numAt d5 "body_size" i)))
  let d7 := d6.setCol "shooting_star"
    (mkB (fun i =>
      oLT (oDiv (numAt d6 "body_size" i) (numAt d6 "total_range" i)) (some (3/10)) &&
        oGT (numAt d6 "upper_shadow" i) (oMul 2 (numAt d6 "body_size" i)) &&
        oLT (numAt d6 "lower_shadow" i) (numAt d6 "body_size" i)))
  let d8 := d7.setCol "bullish_engulfing"
    (mkB (fun i =>
      oGT (numAt d7 "close" i) (numAt d7 "open" i) &&
        oLT (shiftAt d7 "close" i 1) (shiftAt d7 "open" i 1) &&
        oLT (numAt d7 "open" i) (shiftAt d7 "close" i 1) &&
        oGT (numAt d7 "close" i) (shiftAt d7 "open" i 1)))
  let d9 := d8.setCol "bearish_engulfing"
    (mkB (fun i =>
      oLT (numAt d8 "close" i) (numAt d8 "open" i) &&
        oGT (shiftAt d8 "close" i 1) (shiftAt d8 "open" i 1) &&
        oGT (numAt d8 "open" i) (shiftAt d8 "close" i 1) &&
        oLT (numAt d8 "close" i) (shiftAt d8 "open" i 1)))
  d9

/-- Cells of a window, all defined — a pandas rolling aggregate with the
default `min_periods = window` is `NaN` as soon as one observation in the
window is missing. -/
def allSome : List (Option ℚ) → Option (List ℚ)
  | [] => some []
  | none :: _ => none
  | some x :: t => (allSome t).map (fun l => x :: l)

/-- `rolling(window=w, center=True).max()` at row `i`: with `center=True`
pandas labels the trailing window of width `w` at its centre, so row `i`
aggregates rows `[i + (w-1)/2 + 1 - w, i + (w-1)/2]`; `NaN` when the window
leaves the frame or contains a `NaN`. -/
def centeredRollMax (xs : List (Option ℚ)) (w i : ℕ) : Option ℚ :=
  let k := (w - 1) / 2
  if w ≤ i + k + 1 && i + k < xs.length then
    (allSome ((xs.drop (i + k + 1 - w)).take w)).bind (fun l => l.max?)
  else none

/-- `rolling(window=w, center=True).min()` at row `i`. -/
def centeredRollMin (xs : List (Option ℚ)) (w i : ℕ) : Option ℚ :=
  let k := (w - 1) / 2
  if w ≤ i + k + 1 && i + k < xs.length then
    (allSome ((xs.drop (i + k + 1 - w)).take w)).bind (fun l => l.min?)
  else none

/-- `detect_support_resistance` (src/indicators.py lines 138-183) with the
default `window = 20`: pivot flags from centred rolling extrema, then one
support level (highest pivot low below the last close) and one resistance
level (lowest pivot high above it), broadcast as constant columns. -/
def detect_support_resistance (df : DataFrame) : DataFrame :=
  let window := 20
  let n := df.nrows
  if n < window * 2 then
    (df.setCol "support_level" (Col.nums (List.replicate n none))).setCol
      "resistance_level" (Col.nums (List.replicate n none))
  else
    let highs := colNums df "high"
    let lows := colNums df "low"
    let pivotHigh := fun i => oEQ (centeredRollMax highs window i) (numAt df "high" i)
    let pivotLow := fun i => oEQ (centeredRollMin lows window i) (numAt df "low" i)
    let d1 := df.setCol "pivot_high" (Col.bools ((List.range n).map pivotHigh))
    let d2 := d1.setCol "pivot_low" (Col.bools ((List.range n).map pivotLow))
    let resistanceLevels := (List.range n).filterMap
      (fun i => if pivotHigh i then numAt df "high" i else none)
    let supportLevels := (List.range n).filterMap
      (fun i => if pivotLow i then numAt df "low" i else none)
    let current := numAt df "close" (n - 1)
    let resistance := (resistanceLevels.filter (fun r => oGT (some r) current)).min?
    let support := (supportLevels.filter (fun s => oLT (some s) current)).max?
    (d2.setCol "support_level" (Col.nums (List.replicate n support))).setCol
      "resistance_level" (Col.nums (List.replicate n resistance))

/-- `max()` of a pandas slice: missing cells are skipped (`skipna`), an
empty or all-missing slice gives `NaN`. -/
def snanMax (l : List (Option ℚ)) : Option ℚ := (l.filterMap id).max?

/-- `min()` of a pandas slice, skipping missing cells. -/
def snanMin (l : List (Option ℚ)) : Option ℚ := (l.filterMap id).min?

/-- Last two entries of a list as (second-last, last); `none` when the list
has fewer than two entries. -/
def lastTwo (l : List ℚ) : Option (ℚ × ℚ) :=
  match l.reverse with
  | a :: b :: _ => some (b, a)
  | _ => none

/-- `analyze_trend_structure` (src/indicators.py lines 185-229) with the
default `lookback = 50`: swing highs/lows over the last 50 rows (local
extrema against the 5 rows on each side), trend label from the last two of
each, broadcast as a constant column. -/
def analyze_trend_structure (df : DataFrame) : DataFrame :=
  let lookback := 50
  let n := df.nrows
  if n < lookback then
    df.setCol "trend_structure" (Col.strs (List.replicate n "insufficient_data"))
  else
    let b := n - lookback
    let m := lookback
    if m < 11 then
      df.setCol "trend_structure" (Col.strs (List.replicate n "insufficient_data"))
    else
      let highs := colNums df "high"
      let lows := colNums df "low"
      let swingHighAt := fun (i : ℕ) =>
        oGT (numAt df "high" (b + i)) (snanMax ((highs.drop (b + i - 5)).take 5)) &&
          oGT (numAt df "high" (b + i)) (snanMax ((highs.drop (b + i + 1)).take 5))
      let swingLowAt := fun (i : ℕ) =>
        oLT (numAt df "low" (b + i)) (snanMin ((lows.drop (b + i - 5)).take 5)) &&
          oLT (numAt df "low" (b + i)) (snanMin ((lows.drop (b + i + 1)).take 5))
      let swingHighs := (List.range' 5 (m - 10)).filterMap
        (fun i => if swingHighAt i then numAt df "high" (b + i) else none)
      let swingLows := (List.range' 5 (m - 10)).filterMap
        (fun i => if swingLowAt i then numAt df "low" (b + i) else none)
      let trend :=
        match lastTwo swingHighs, lastTwo swingLows with
        | some (h2, h1), some (l2, l1) =>
            if h2 < h1 ∧ l2 < l1 then "uptrend"
            else if h1 < h2 ∧ l1 < l2 then "downtrend"
            else "sideways"
        | _, _ => "sideways"
      df.setCol "trend_structure" (Col.strs (List.replicate n trend))

/-! ## `generate_signals` assembled (src/signal_generator.py lines 7-207) -/

/-- Lines 29-33: the four signal columns are created with neutral values
before any analysis. -/
def initCols (d : DataFrame) : DataFrame :=
  ((((d.setCol "signal" (Col.ints (List.replicate d.nrows 0))).setCol
    "signal_strength" (Col.nums (List.replicate d.nrows (some 0)))).setCol
    "signal_reason" (Col.strs (List.replicate d.nrows ""))).setCol
    "signal_components" (Col.strs (List.replicate d.nrows "")))

/-- Lines 36-39: the price-action pre-processing chain, applied only when
`use_price_action` is set. -/
def detectChain (usePA : Bool) (d : DataFrame) : DataFrame :=
  if usePA then
    analyze_trend_structure (detect_support_resistance (detect_candlestick_patterns d))
  else d

/-- The frame state at line 166, from which `final_score` is computed. -/
def scoredBase (df : DataFrame) (usePA : Bool) : DataFrame :=
  detectChain usePA (initCols df)

/-- `signal_reason` text (lines 200-205); the `(Score: x.xx)` numeric
annotation is elided, the branch on the signal value is kept. -/
def reasonStr (sig : ℤ) : String :=
  if sig = 1 then "Bullish confluence"
  else if sig = -1 then "Bearish confluence"
  else "Neutral"

/-- Contributor names of the trend category (lines 54, 61, 67, 74). -/
def trendComponents (df : DataFrame) : List String :=
  (if hasCol df "MACD_12_26_9" && hasCol df "MACDs_12_26_9" then ["MACD"] else []) ++
    (if hasCol df "EMA_20" && hasCol df "EMA_50" then ["EMA"] else []) ++
    (if hasCol df "ADX_14" then ["ADX"] else []) ++
    (if hasCol df "PSARl_0.02_0.2" && hasCol df "PSARs_0.02_0.2" then ["PSAR"] else [])

/-- Contributor names of the momentum category (lines 88, 95, 102). -/
def momentumComponents (df : DataFrame) : List String :=
  (if hasCol df "RSI_14" then ["RSI"] else []) ++
    (if hasCol df "WILLR_14" then ["WILLR"] else []) ++
    (if hasCol df "CCI_14_0.015" then ["CCI"] else [])

/-- Contributor names of the volume category (lines 113, 120). -/
def volumeComponents (df : DataFrame) : List String :=
  (if hasCol df "OBV" then ["OBV"] else []) ++
    (if hasCol df "MFI_14" then ["MFI"] else [])

/-- Contributor names of the volatility category (lines 134, 141). -/
def volatilityComponents (df : DataFrame) : List String :=
  (match findColStarting df "BBL_", findColStarting df "BBU_" with
    | some _, some _ => ["BB"]
    | _, _ => []) ++
    (if hasCol df "KCLe_20_2" && hasCol df "KCUe_20_2" then ["KC"] else [])

/-- Contributor names of the price-action category (lines 151-163). -/
def priceActionComponents (df : DataFrame) : List String :=
  (if hasCol df "bullish_engulfing" then ["Bullish_Engulfing"] else []) ++
    (if hasCol df "bearish_engulfing" then ["Bearish_Engulfing"] else []) ++
    (if hasCol df "hammer" then ["Hammer"] else []) ++
    (if hasCol df "shooting_star" then ["Shooting_Star"] else [])

/-- `signal_components` text at row `i` (lines 185-198): names of the
categories that scored non-zero, in category order; the per-name `(value)`
annotation is elided. -/
def componentsAt (usePA : Bool) (d : DataFrame) (i : ℕ) : String :=
  String.intercalate ", "
    ((if trendScore d i ≠ 0 then trendComponents d else []) ++
      (if momentumScore d i ≠ 0 then momentumComponents d else []) ++
      (if volumeScore d i ≠ 0 then volumeComponents d else []) ++
      (if volatilityScore d i ≠ 0 then volatilityComponents d else []) ++
      (if usePA ∧ priceActionScore usePA d i ≠ 0 then priceActionComponents d else []))

/-- Lines 174-205: classification, strength (raw then clipped), components
and reason, written over the frame of line 166. -/
def finalCols (w : Weights) (usePA : Bool) (d : DataFrame) : DataFrame :=
  let n := d.nrows
  let fs := fun (i : ℕ) => finalScore w usePA d i
  let d1 := d.setCol "signal" (Col.ints ((List.range n).map (fun i => signalOf (fs i))))
  let d2 := d1.setCol "signal_strength"
    (Col.nums ((List.range n).map (fun i => some (|fs i| / maxPossibleScore))))
  let d3 := d2.setCol "signal_strength"
    (Col.nums ((List.range n).map (fun i => some (strengthOf (fs i)))))
  let d4 := d3.setCol "signal_components"
    (Col.strs ((List.range n).map (fun i => componentsAt usePA d i)))
  let d5 := d4.setCol "signal_reason"
    (Col.strs ((List.range n).map (fun i => reasonStr (signalOf (fs i)))))
  d5

/-- `generate_signals(df, use_price_action, indicator_weights)` as a pure
frame function (the source copies its argument first; the heap-level
translation below accounts for the copy). -/
def generate_signals (df : DataFrame) (usePA : Bool) (w : Weights) : DataFrame :=
  finalCols w usePA (scoredBase df usePA)

/-! ## Confluence calculator (`calculate_mtf_confluence`,
src/signal_generator.py lines 317-394) -/

/-- The per-timeframe record consumed by the confluence calculator: the
latest row's signal (`1`/`-1`/`0`), its strength, and the trend-structure
label. -/
structure TFResult where
  signal : ℤ
  strength : ℚ
  trend : String
deriving DecidableEq

/-- `timeframe_weights.get(timeframe, 0.1)` (line 347): dict lookup with the
hard-coded low default for unknown intervals. -/
def weightOf (tw : List (String × ℚ)) (tf : String) : ℚ :=
  (alookup tw tf).getD (1/10)

/-- The default timeframe weight table (lines 330-339). -/
def defaultTimeframeWeights : List (String × ℚ) :=
  [("Min1", 1/10), ("Min5", 3/20), ("Min15", 1/5), ("Min30", 1/4),
    ("Min60", 3/10), ("Hour4", 1/2), ("Hour8", 3/5), ("Day1", 7/10)]

/-- `total_score` (lines 341-355): sum of `signal × strength × weight` over
the timeframes present. -/
def totalScore (tw : List (String × ℚ)) (res : List (String × TFResult)) : ℚ :=
  (res.map (fun p => (p.2.signal : ℚ) * p.2.strength * weightOf tw p.1)).sum

/-- `total_weight` (lines 342-355): sum of the weights of the timeframes
present. -/
def totalWeight (tw : List (String × ℚ)) (res : List (String × TFResult)) : ℚ :=
  (res.map (fun p => weightOf tw p.1)).sum

/-- `confluence_score` (lines 367-371): the weighted average, degraded to
`0` unless the total weight is positive. -/
def confluence_score (tw : List (String × ℚ)) (res : List (String × TFResult)) : ℚ :=
  if totalWeight tw res > 0 then totalScore tw res / totalWeight tw res else 0

/-- `final_signal` (lines 373-379). -/
def final_signal (tw : List (String × ℚ)) (res : List (String × TFResult)) : String :=
  if confluence_score tw res > 3/10 then "BUY"
  else if confluence_score tw res < -(3/10) then "SELL"
  else "HOLD"

/-- The trend labels of the analyzed timeframes, in mapping order
(line 382). -/
def trendsOf (res : List (String × TFResult)) : List String :=
  res.map (fun p => p.2.trend)

/-- Python `max(iterable, key=trends.count)`: fold that replaces the current
best only on a strictly larger count, so the first element of the iteration
achieving the maximal count wins. -/
def pyMaxByCount (trends : List String) : List String → String
  | [] => ""
  | x :: xs => xs.foldl (fun best y => if trends.count best < trends.count y then y else best) x

/-- `trend_consensus` (line 383): `max(set(trends), key=trends.count)` when
any timeframe was analyzed, else `"unknown"`.  `order` is the iteration
order of the Python set `set(trends)` — some duplicate-free enumeration of
the distinct labels, chosen by the hash-based set layout. -/
def trend_consensus (order : List String) (trends : List String) : String :=
  if trends.isEmpty then "unknown" else pyMaxByCount trends order

/-- `trend_agreement` (line 384): frequency of the consensus label over the
number of timeframes analyzed, `0` when none. -/
def trend_agreement (order : List String) (trends : List String) : ℚ :=
  if trends.isEmpty then 0
  else (trends.count (trend_consensus order trends) : ℚ) / trends.length

/-- Modelled from the spec: "`trend_consensus` = most frequent
trend-structure label across analyzed timeframes (first-seen wins ties)" —
the fold over the labels in first-appearance order, used to compare the
spec's tie-break with the one the code performs. -/
def specTrendConsensus (trends : List String) : String :=
  if trends.isEmpty then "unknown" else pyMaxByCount trends trends

/-! ## Streaming detector (`MexcWebSocketStream`, src/websocket_stream.py) -/

/-- One candle as built by `process_message` (lines 76-83). -/
structure Candle where
  timestamp : ℕ
  opn : ℚ
  high : ℚ
  low : ℚ
  close : ℚ
  volume : ℚ
deriving DecidableEq

/-- `collections.deque(maxlen=cap).append` on the buffer contents: plain
append while below capacity, otherwise the leftmost (oldest) element is
discarded as the new one enters. -/
def dequeAppend (cap : ℕ) (buf : List Candle) (c : Candle) : List Candle :=
  if buf.length < cap then buf ++ [c] else (buf ++ [c]).tail

/-- The mutable per-subscription state of `MexcWebSocketStream.__init__`
(lines 13-21): instrument, interval, buffer capacity, candle buffer and the
last emitted non-HOLD signal (`last_signal`, `None` before any emission). -/
structure MexcWebSocketStream where
  symbol : String
  interval : String
  maxCandles : ℕ
  candleBuffer : List Candle
  lastSignal : Option ℤ
deriving DecidableEq

/-- `MexcWebSocketStream(symbol, interval)` with the default
`max_candles=1000`: empty buffer, no last signal. -/
def initStream (symbol interval : String) (maxCandles : ℕ) : MexcWebSocketStream :=
  ⟨symbol, interval, maxCandles, [], none⟩

/-- The constructor as invoked with the defaulted `max_candles` (line 13). -/
def initStreamDefault (symbol interval : String) : MexcWebSocketStream :=
  initStream symbol interval 1000

/-- The buffer append of `process_message` (line 86). -/
def appendCandle (s : MexcWebSocketStream) (c : Candle) : MexcWebSocketStream :=
  { s with candleBuffer := dequeAppend s.maxCandles s.candleBuffer c }

/-- A whole sequence of accepted candles. -/
def appendCandles (s : MexcWebSocketStream) (cs : List Candle) : MexcWebSocketStream :=
  cs.foldl appendCandle s

/-- The emit transition of `analyze_signals` (lines 119-150) on the latest
scored row's direction `d`: returns whether an event is dispatched and the
updated `last_signal`.  In Python `current_signal != self.last_signal` is
true whenever `last_signal` is `None`, matching the `Option` inequality. -/
def emitStep (last : Option ℤ) (d : ℤ) : Bool × Option ℤ :=
  if d ≠ 0 ∧ some d ≠ last then (true, some d) else (false, last)

/-- Number of events dispatched while processing a sequence of latest-row
directions from a given `last_signal` state. -/
def emitCount (last : Option ℤ) : List ℤ → ℕ
  | [] => 0
  | d :: ds =>
      (if (emitStep last d).1 then 1 else 0) + emitCount (emitStep last d).2 ds

/-! ## Multi-symbol manager (`MultiSymbolStream`, src/websocket_stream.py
lines 171-216): a dict of streams keyed by the instrument string. -/

/-- `self.streams`, an insertion-ordered dict. -/
structure MultiSymbolStream where
  streams : List (String × MexcWebSocketStream)
deriving DecidableEq

/-- `add_symbol(symbol, interval)` (lines 178-189): create and register a
stream only when the instrument is not yet subscribed, otherwise return the
existing stream untouched.  Returns the stream and the updated manager. -/
def addSymbol (m : MultiSymbolStream) (symbol interval : String) :
    MexcWebSocketStream × MultiSymbolStream :=
  match alookup m.streams symbol with
  | some s => (s, m)
  | none =>
      let s := initStreamDefault symbol interval
      (s, ⟨m.streams ++ [(symbol, s)]⟩)

/-- `remove_symbol(symbol)` (lines 191-195): drop the subscription when
present, no-op otherwise. -/
def removeSymbol (m : MultiSymbolStream) (symbol : String) : MultiSymbolStream :=
  if (alookup m.streams symbol).isSome then
    ⟨m.streams.eraseP (fun p => p.1 = symbol)⟩
  else m

/-! ## Heap-level translation of `generate_signals` (for the no-mutation
property).  Objects live in a heap of frames addressed by allocation index;
`df = df.copy()` allocates, each `detect_*` call returns a fresh object the
local name is rebound to, and every column write targets the object the
local name currently denotes. -/

/-- Write through a reference: replace the frame at index `r` by the result
of mutating it (out-of-range writes are impossible in the program below and
are modelled as no-ops). -/
def writeAt (h : List DataFrame) (r : ℕ) (f : DataFrame → DataFrame) : List DataFrame :=
  h.set r (f (h.getD r emptyDF))

/-- `generate_signals` at the heap level: `inRef` is the caller's frame.
Line 17 allocates the copy; lines 30-33 mutate the copy; each of lines
37-39 allocates a fresh frame from the current one and rebinds; lines
174-205 mutate the frame the local name finally denotes.  Returns the heap
and the reference to the returned frame. -/
def generateSignalsHeap (h : List DataFrame) (inRef : ℕ) (usePA : Bool) (w : Weights) :
    List DataFrame × ℕ :=
  let h1 := h ++ [h.getD inRef emptyDF]
  let r1 := h1.length - 1
  let h2 := writeAt h1 r1 initCols
  if usePA then
    let h3 := h2 ++ [detect_candlestick_patterns (h2.getD r1 emptyDF)]
    let r2 := h3.length - 1
    let h4 := h3 ++ [detect_support_resistance (h3.getD r2 emptyDF)]
    let r3 := h4.length - 1
    let h5 := h4 ++ [analyze_trend_structure (h4.getD r3 emptyDF)]
    let r4 := h5.length - 1
    (writeAt h5 r4 (finalCols w usePA), r4)
  else
    (writeAt h2 r1 (finalCols w usePA), r1)

/-- The `signal` (direction) cell of a scored frame at row `i`. -/
def sigAt (df : DataFrame) (i : ℕ) : Option ℤ :=
  match df.col "signal" with
  | some (Col.ints xs) => xs.get? i
  | _ => none

/-!  Structural lemmas: every frame operation of the pipeline preserves the
row count, and the scored columns of the output are the mapped ranges. -/

theorem nrows_detect_candlestick (df : DataFrame) :
    (detect_candlestick_patterns df).nrows = df.nrows := rfl

theorem nrows_detect_support (df : DataFrame) :
    (detect_support_resistance df).nrows = df.nrows := by
  unfold detect_support_resistance
  dsimp only
  split <;> rfl

theorem nrows_analyze_trend (df : DataFrame) :
    (analyze_trend_structure df).nrows = df.nrows := by
  unfold analyze_trend_structure
  dsimp only
  split
  · rfl
  · split <;> rfl

theorem nrows_initCols (df : DataFrame) : (initCols df).nrows = df.nrows := rfl

theorem nrows_scoredBase (df : DataFrame) (usePA : Bool) :
    (scoredBase df usePA).nrows = df.nrows := by
  cases usePA <;>
    simp [scoredBase, detectChain, nrows_analyze_trend, nrows_detect_support,
      nrows_detect_candlestick, nrows_initCols]

theorem sigAt_generate_signals (df : DataFrame) (usePA : Bool) (w : Weights)
    (i : ℕ) (hi : i < df.nrows) :
    sigAt (generate_signals df usePA w) i =
      some (signalOf (finalScore w usePA (scoredBase df usePA) i)) := by
  have hn : (scoredBase df usePA).nrows = df.nrows := nrows_scoredBase df usePA
  unfold generate_signals finalCols
  simp only [sigAt, col_setCol_ne _ _ _ _ (by decide : ("signal" : String) ≠ "signal_reason"),
    col_setCol_ne _ _ _ _ (by decide : ("signal" : String) ≠ "signal_components"),
    col_setCol_ne _ _ _ _ (by decide : ("signal" : String) ≠ "signal_strength"),
    col_setCol_self]
  rw [List.get?_map, List.get?_range (by rw [hn]; exact hi)]
  rfl

theorem strengthAt_generate_signals (df : DataFrame) (usePA : Bool) (w : Weights)
    (i : ℕ) (hi : i < df.nrows) :
    numAt (generate_signals df usePA w) "signal_strength" i =
      some (strengthOf (finalScore w usePA (scoredBase df usePA) i)) := by
  have hn : (scoredBase df usePA).nrows = df.nrows := nrows_scoredBase df usePA
  unfold generate_signals finalCols
  simp only [numAt,
    col_setCol_ne _ _ _ _ (by decide : ("signal_strength" : String) ≠ "signal_reason"),
    col_setCol_ne _ _ _ _ (by decide : ("signal_strength" : String) ≠ "signal_components"),
    col_setCol_self]
  rw [List.get?_map, List.get?_range (by rw [hn]; exact hi)]
  rfl

/-- Dict lookup walks the second list once the key misses the first. -/
theorem alookup_append {α : Type} (l1 l2 : List (String × α)) (n : String)
    (h : alookup l1 n = none) : alookup (l1 ++ l2) n = alookup l2 n := by
  induction l1 with
  | nil => rfl
  | cons p t ih =>
      obtain ⟨k, v⟩ := p
      by_cases hk : k = n
      · simp [alookup, hk] at h
      · simp only [List.cons_append, alookup, hk, if_false] at h ⊢
        exact ih h

/-! ## Classification helper lemmas -/

theorem signalOf_eq_one_iff (fs : ℚ) : signalOf fs = 1 ↔ signalThreshold < fs := by
  unfold signalOf
  split_ifs with h1 h2
  · simp [h1]
  · constructor
    · intro hh; exact absurd hh (by decide)
    · intro hh; exact absurd hh h1
  · constructor
    · intro hh; exact absurd hh (by decide)
    · intro hh; exact absurd hh h1

theorem signalOf_eq_negOne_iff (fs : ℚ) : signalOf fs = -1 ↔ fs < -signalThreshold := by
  unfold signalOf signalThreshold at *
  split_ifs with h1 h2
  · constructor
    · intro hh; exact absurd hh (by decide)
    · intro hh; exfalso; linarith
  · simp [h2]
  · constructor
    · intro hh; exact absurd hh (by decide)
    · intro hh; exact absurd hh h2

theorem signalOf_eq_zero_iff (fs : ℚ) : signalOf fs = 0 ↔ |fs| ≤ signalThreshold := by
  rw [abs_le]
  unfold signalOf signalThreshold at *
  split_ifs with h1 h2
  · constructor
    · intro hh; exact absurd hh (by decide)
    · intro hh; exfalso; linarith [hh.2]
  · constructor
    · intro hh; exact absurd hh (by decide)
    · intro hh; exfalso; linarith [hh.1]
  · simp only [not_lt] at h1 h2
    constructor
    · intro _; exact ⟨by linarith, h1⟩
    · intro _; rfl

theorem strengthOf_nonneg (a : ℚ) : 0 ≤ strengthOf a :=
  le_min (le_max_right _ _) (by norm_num)

theorem strengthOf_le_one (a : ℚ) : strengthOf a ≤ 1 := min_le_right _ _

theorem strengthOf_mono {a b : ℚ} (hab : |a| ≤ |b|) : strengthOf a ≤ strengthOf b := by
  unfold strengthOf npClip maxPossibleScore
  have hd : |a| / 10 ≤ |b| / 10 := by linarith
  exact min_le_min (max_le_max hd le_rfl) le_rfl

/-- C1: for every IndicatorRow series and every row of the scored output,
the direction is BUY (1) iff the weighted total exceeds the threshold 1.5,
SELL (-1) iff it is below -1.5, HOLD (0) iff its absolute value is at most
1.5; the strength equals `clip(|weighted_total| / 10, 0, 1)`, always lies in
[0, 1], and is monotone non-decreasing in the absolute weighted total. -/
theorem C1_direction_threshold_and_strength (w : Weights) (usePA : Bool)
    (df : DataFrame) (i : ℕ) (h : i < df.nrows) :
    (sigAt (generate_signals df usePA w) i =
      some (signalOf (finalScore w usePA (scoredBase df usePA) i))) ∧
    (sigAt (generate_signals df usePA w) i = some 1 ↔
      signalThreshold < finalScore w usePA (scoredBase df usePA) i) ∧
    (sigAt (generate_signals df usePA w) i = some (-1) ↔
      finalScore w usePA (scoredBase df usePA) i < -signalThreshold) ∧
    (sigAt (generate_signals df usePA w) i = some 0 ↔
      |finalScore w usePA (scoredBase df usePA) i| ≤ signalThreshold) ∧
    (numAt (generate_signals df usePA w) "signal_strength" i =
      some (npClip (|finalScore w usePA (scoredBase df usePA) i| / maxPossibleScore) 0 1)) ∧
    (∀ q : ℚ, numAt (generate_signals df usePA w) "signal_strength" i = some q →
      0 ≤ q ∧ q ≤ 1) ∧
    (∀ a b : ℚ, |a| ≤ |b| → strengthOf a ≤ strengthOf b) := by
  have hs := sigAt_generate_signals df usePA w i h
  have hq := strengthAt_generate_signals df usePA w i h
  refine ⟨hs, ?_, ?_, ?_, ?_, ?_, ?_⟩
  · rw [hs, Option.some_inj]; exact signalOf_eq_one_iff _
  · rw [hs, Option.some_inj]; exact signalOf_eq_negOne_iff _
  · rw [hs, Option.some_inj]; exact signalOf_eq_zero_iff _
  · rw [hq]; rfl
  · intro q hqq
    rw [hq, Option.some_inj] at hqq
    exact hqq ▸ ⟨strengthOf_nonneg _, strengthOf_le_one _⟩
  · intro a b hab; exact strengthOf_mono hab

/-- A one-row frame used to instantiate C1. -/
def c1WitnessDF : DataFrame := ⟨1, [("close", Col.nums [some 1])]⟩

/-- Witness for C1 at a concrete one-row frame. -/
theorem C1_direction_threshold_and_strength_witness :
    (sigAt (generate_signals c1WitnessDF false defaultWeights) 0 =
      some (signalOf (finalScore defaultWeights false (scoredBase c1WitnessDF false) 0))) ∧
    (sigAt (generate_signals c1WitnessDF false defaultWeights) 0 = some 1 ↔
      signalThreshold < finalScore defaultWeights false (scoredBase c1WitnessDF false) 0) ∧
    (sigAt (generate_signals c1WitnessDF false defaultWeights) 0 = some (-1) ↔
      finalScore defaultWeights false (scoredBase c1WitnessDF false) 0 < -signalThreshold) ∧
    (sigAt (generate_signals c1WitnessDF false defaultWeights) 0 = some 0 ↔
      |finalScore defaultWeights false (scoredBase c1WitnessDF false) 0| ≤ signalThreshold) ∧
    (numAt (generate_signals c1WitnessDF false defaultWeights) "signal_strength" 0 =
      some (npClip (|finalScore defaultWeights false (scoredBase c1WitnessDF false) 0| /
        maxPossibleScore) 0 1)) ∧
    (∀ q : ℚ, numAt (generate_signals c1WitnessDF false defaultWeights) "signal_strength" 0 =
      some q → 0 ≤ q ∧ q ≤ 1) ∧
    (∀ a b : ℚ, |a| ≤ |b| → strengthOf a ≤ strengthOf b) :=
  C1_direction_threshold_and_strength defaultWeights false c1WitnessDF 0 (by decide)

/-! ## C3: the emit transition of the streaming detector -/

theorem emitCount_replicate_same (d : ℤ) (n : ℕ) :
    emitCount (some d) (List.replicate n d) = 0 := by
  induction n with
  | zero => rfl
  | succ k ih =>
      have hstep : emitStep (some d) d = (false, some d) := by
        simp [emitStep]
      simp [List.replicate_succ, emitCount, hstep, ih]

/-- C3: an event is dispatched exactly when the latest row's direction is
non-HOLD (non-zero) and differs from `last_signal`; such an event updates
`last_signal` to that direction, a non-event leaves it unchanged; a HOLD
row never produces an event; and a contiguous run of equal non-HOLD
directions produces at most one event. -/
theorem C3_emit_transition (last : Option ℤ) (d : ℤ) (n : ℕ) :
    ((emitStep last d).1 = true ↔ d ≠ 0 ∧ some d ≠ last) ∧
    ((emitStep last d).1 = true → (emitStep last d).2 = some d) ∧
    ((emitStep last d).1 = false → (emitStep last d).2 = last) ∧
    (emitStep last 0 = (false, last)) ∧
    (d ≠ 0 → emitCount last (List.replicate n d) ≤ 1) := by
  refine ⟨?_, ?_, ?_, ?_, ?_⟩
  · unfold emitStep; split_ifs with hc
    · simpa using hc
    · simpa using hc
  · unfold emitStep; split_ifs with hc
    · intro _; rfl
    · intro hh; exact absurd hh (by decide)
  · unfold emitStep; split_ifs with hc
    · intro hh; exact absurd hh (by decide)
    · intro _; rfl
  · simp [emitStep]
  · intro hd
    cases n with
    | zero => simp [emitCount]
    | succ k =>
        by_cases hne : some d ≠ last
        · have hstep : emitStep last d = (true, some d) := by
            simp [emitStep, hd, hne]
          simp [List.replicate_succ, emitCount, hstep, emitCount_replicate_same]
        · push_neg at hne
          rw [← hne, emitCount_replicate_same]
          omega

/-- Witness for C3: three consecutive BUY rows from a fresh detector emit at
most once. -/
theorem C3_emit_transition_witness :
    emitCount none (List.replicate 3 1) ≤ 1 :=
  (C3_emit_transition none 1 3).2.2.2.2 (by decide)

/-! ## C6: the bounded candle buffer -/

theorem dequeAppend_length_le (cap : ℕ) (buf : List Candle) (c : Candle)
    (h : buf.length ≤ cap) : (dequeAppend cap buf c).length ≤ cap := by
  unfold dequeAppend
  split_ifs with h1
  · simp only [List.length_append, List.length_cons, List.length_nil]
    omega
  · simp only [List.length_tail, List.length_append, List.length_cons, List.length_nil]
    omega

theorem appendCandles_length_le (cs : List Candle) :
    ∀ s : MexcWebSocketStream, s.candleBuffer.length ≤ s.maxCandles →
      (appendCandles s cs).candleBuffer.length ≤ (appendCandles s cs).maxCandles ∧
      (appendCandles s cs).maxCandles = s.maxCandles := by
  induction cs with
  | nil => intro s h; exact ⟨h, rfl⟩
  | cons c t ih =>
      intro s h
      have h1 : (appendCandle s c).candleBuffer.length ≤ (appendCandle s c).maxCandles :=
        dequeAppend_length_le _ _ _ h
      have := ih (appendCandle s c) h1
      exact ⟨this.1, this.2⟩

/-- C6: starting from any stream state whose buffer respects its capacity,
the buffer length never exceeds the capacity — after one append or any
sequence of appends; once the buffer is at (positive) capacity, appending
evicts exactly the oldest element and leaves the length at capacity.  The
constructor defaults the capacity to 1000 with an empty buffer. -/
theorem C6_buffer_capacity (s : MexcWebSocketStream) (c : Candle)
    (cs : List Candle) (sym iv : String)
    (h : s.candleBuffer.length ≤ s.maxCandles) :
    ((appendCandle s c).candleBuffer.length ≤ s.maxCandles) ∧
    ((appendCandles s cs).candleBuffer.length ≤ s.maxCandles) ∧
    (s.candleBuffer.length = s.maxCandles → 0 < s.maxCandles →
      (appendCandle s c).candleBuffer = s.candleBuffer.tail ++ [c] ∧
      (appendCandle s c).candleBuffer.length = s.maxCandles) ∧
    ((initStreamDefault sym iv).maxCandles = 1000 ∧
      (initStreamDefault sym iv).candleBuffer = []) := by
  refine ⟨dequeAppend_length_le _ _ _ h, ?_, ?_, by simp [initStreamDefault, initStream]⟩
  · have := appendCandles_length_le cs s h
    exact this.2 ▸ this.1
  · intro hfull hpos
    have hne : s.candleBuffer ≠ [] := by
      intro hnil
      rw [hnil] at hfull
      simp at hfull
      omega
    have hnlt : ¬ s.candleBuffer.length < s.maxCandles := by omega
    have htail : (s.candleBuffer ++ [c]).tail = s.candleBuffer.tail ++ [c] := by
      cases hb : s.candleBuffer with
      | nil => exact absurd hb hne
      | cons a t => simp
    constructor
    · simp only [appendCandle, dequeAppend, hnlt, if_false]
      exact htail
    · simp only [appendCandle, dequeAppend, hnlt, if_false, htail,
        List.length_append, List.length_tail, List.length_cons, List.length_nil]
      omega

/-- Witness for C6 at a concrete full two-slot buffer. -/
theorem C6_buffer_capacity_witness :
    ((appendCandle ⟨"BTC_USDT", "Min15", 2, [⟨0, 1, 1, 1, 1, 1⟩, ⟨1, 2, 2, 2, 2, 2⟩], none⟩
        ⟨2, 3, 3, 3, 3, 3⟩).candleBuffer.length ≤ 2) ∧
    ((appendCandles ⟨"BTC_USDT", "Min15", 2, [⟨0, 1, 1, 1, 1, 1⟩, ⟨1, 2, 2, 2, 2, 2⟩], none⟩
        [⟨2, 3, 3, 3, 3, 3⟩, ⟨3, 4, 4, 4, 4, 4⟩]).candleBuffer.length ≤ 2) ∧
    (([⟨0, 1, 1, 1, 1, 1⟩, ⟨1, 2, 2, 2, 2, 2⟩] : List Candle).length = 2 → 0 < 2 →
      (appendCandle ⟨"BTC_USDT", "Min15", 2, [⟨0, 1, 1, 1, 1, 1⟩, ⟨1, 2, 2, 2, 2, 2⟩], none⟩
        ⟨2, 3, 3, 3, 3, 3⟩).candleBuffer =
          ([⟨0, 1, 1, 1, 1, 1⟩, ⟨1, 2, 2, 2, 2, 2⟩] : List Candle).tail ++ [⟨2, 3, 3, 3, 3, 3⟩] ∧
      (appendCandle ⟨"BTC_USDT", "Min15", 2, [⟨0, 1, 1, 1, 1, 1⟩, ⟨1, 2, 2, 2, 2, 2⟩], none⟩
        ⟨2, 3, 3, 3, 3, 3⟩).candleBuffer.length = 2) ∧
    ((initStreamDefault "BTC_USDT" "Min15").maxCandles = 1000 ∧
      (initStreamDefault "BTC_USDT" "Min15").candleBuffer = []) :=
  C6_buffer_capacity ⟨"BTC_USDT", "Min15", 2, [⟨0, 1, 1, 1, 1, 1⟩, ⟨1, 2, 2, 2, 2, 2⟩], none⟩
    ⟨2, 3, 3, 3, 3, 3⟩ [⟨2, 3, 3, 3, 3, 3⟩, ⟨3, 4, 4, 4, 4, 4⟩] "BTC_USDT" "Min15" (by decide)

/-! ## C7 / C10: subscription management -/

/-- C7: subscribing an already-subscribed instrument (same
instrument/interval pair, since the registered stream keeps its interval)
is a no-op returning the existing stream and leaving the manager unchanged;
removing an unsubscribed instrument is a no-op; and a fresh subscription
followed by an identical one returns the same stream and state, not a
duplicate worker. -/
theorem C7_subscription_idempotent (m : MultiSymbolStream) (sym sym2 iv : String)
    (s : MexcWebSocketStream)
    (h : alookup m.streams sym = some s)
    (h2 : alookup m.streams sym2 = none) :
    addSymbol m sym s.interval = (s, m) ∧
    removeSymbol m sym2 = m ∧
    addSymbol (addSymbol m sym2 iv).2 sym2 iv = addSymbol m sym2 iv := by
  refine ⟨?_, ?_, ?_⟩
  · unfold addSymbol
    rw [h]
  · unfold removeSymbol
    rw [h2]
    rfl
  · have hfst : addSymbol m sym2 iv =
        (initStreamDefault sym2 iv, ⟨m.streams ++ [(sym2, initStreamDefault sym2 iv)]⟩) := by
      unfold addSymbol
      rw [h2]
    rw [hfst]
    unfold addSymbol
    rw [alookup_append _ _ _ h2]
    simp [alookup]

/-- Witness for C7 on a concrete one-subscription manager. -/
theorem C7_subscription_idempotent_witness :
    addSymbol ⟨[("BTC_USDT", initStreamDefault "BTC_USDT" "Min15")]⟩ "BTC_USDT"
        (initStreamDefault "BTC_USDT" "Min15").interval =
      (initStreamDefault "BTC_USDT" "Min15",
        ⟨[("BTC_USDT", initStreamDefault "BTC_USDT" "Min15")]⟩) ∧
    removeSymbol ⟨[("BTC_USDT", initStreamDefault "BTC_USDT" "Min15")]⟩ "ETH_USDT" =
      ⟨[("BTC_USDT", initStreamDefault "BTC_USDT" "Min15")]⟩ ∧
    addSymbol (addSymbol ⟨[("BTC_USDT", initStreamDefault "BTC_USDT" "Min15")]⟩
        "ETH_USDT" "Min5").2 "ETH_USDT" "Min5" =
      addSymbol ⟨[("BTC_USDT", initStreamDefault "BTC_USDT" "Min15")]⟩ "ETH_USDT" "Min5" :=
  C7_subscription_idempotent ⟨[("BTC_USDT", initStreamDefault "BTC_USDT" "Min15")]⟩
    "BTC_USDT" "ETH_USDT" "Min5" (initStreamDefault "BTC_USDT" "Min15")
    (by decide) (by decide)

/-- C10: the manager keys subscriptions by instrument only: adding an
already-subscribed instrument with any interval — also a different one —
creates no stream, returns the existing stream (which keeps its original
interval), and the interval argument has no effect on the result. -/
theorem C10_interval_ignored (m : MultiSymbolStream) (sym iv iv2 : String)
    (s : MexcWebSocketStream)
    (h : alookup m.streams sym = some s) :
    addSymbol m sym iv = (s, m) ∧
    addSymbol m sym iv = addSymbol m sym iv2 ∧
    (addSymbol m sym iv).1.interval = s.interval ∧
    (addSymbol m sym iv).2.streams = m.streams := by
  have hadd : addSymbol m sym iv = (s, m) := by
    unfold addSymbol
    rw [h]
  have hadd2 : addSymbol m sym iv2 = (s, m) := by
    unfold addSymbol
    rw [h]
  exact ⟨hadd, by rw [hadd, hadd2], by rw [hadd], by rw [hadd]⟩

/-- Witness for C10: re-adding a subscribed instrument with a different
interval returns the existing Min15 stream unchanged. -/
theorem C10_interval_ignored_witness :
    addSymbol ⟨[("BTC_USDT", initStreamDefault "BTC_USDT" "Min15")]⟩ "BTC_USDT" "Hour4" =
      (initStreamDefault "BTC_USDT" "Min15",
        ⟨[("BTC_USDT", initStreamDefault "BTC_USDT" "Min15")]⟩) ∧
    addSymbol ⟨[("BTC_USDT", initStreamDefault "BTC_USDT" "Min15")]⟩ "BTC_USDT" "Hour4" =
      addSymbol ⟨[("BTC_USDT", initStreamDefault "BTC_USDT" "Min15")]⟩ "BTC_USDT" "Day1" ∧
    (addSymbol ⟨[("BTC_USDT", initStreamDefault "BTC_USDT" "Min15")]⟩
        "BTC_USDT" "Hour4").1.interval = (initStreamDefault "BTC_USDT" "Min15").interval ∧
    (addSymbol ⟨[("BTC_USDT", initStreamDefault "BTC_USDT" "Min15")]⟩
        "BTC_USDT" "Hour4").2.streams =
      [("BTC_USDT", initStreamDefault "BTC_USDT" "Min15")] :=
  C10_interval_ignored ⟨[("BTC_USDT", initStreamDefault "BTC_USDT" "Min15")]⟩
    "BTC_USDT" "Hour4" "Day1" (initStreamDefault "BTC_USDT" "Min15") (by decide)

/-! ## C8: order-independence of the confluence aggregation -/

/-- C8: the confluence score is invariant under any permutation of the
per-timeframe results mapping. -/
theorem C8_confluence_permutation_invariant (tw : List (String × ℚ))
    (l1 l2 : List (String × TFResult)) (h : l1.Perm l2) :
    confluence_score tw l1 = confluence_score tw l2 := by
  have hs : totalScore tw l1 = totalScore tw l2 := by
    unfold totalScore
    exact (h.map _).sum_eq
  have hw : totalWeight tw l1 = totalWeight tw l2 := by
    unfold totalWeight
    exact (h.map _).sum_eq
  unfold confluence_score
  rw [hs, hw]

/-- Witness for C8: swapping two concrete timeframe entries leaves the
score unchanged. -/
theorem C8_confluence_permutation_invariant_witness :
    confluence_score defaultTimeframeWeights
        [("Min15", ⟨1, 4/5, "uptrend"⟩), ("Hour4", ⟨-1, 1/2, "downtrend"⟩)] =
      confluence_score defaultTimeframeWeights
        [("Hour4", ⟨-1, 1/2, "downtrend"⟩), ("Min15", ⟨1, 4/5, "uptrend"⟩)] :=
  C8_confluence_permutation_invariant defaultTimeframeWeights
    [("Min15", ⟨1, 4/5, "uptrend"⟩), ("Hour4", ⟨-1, 1/2, "downtrend"⟩)]
    [("Hour4", ⟨-1, 1/2, "downtrend"⟩), ("Min15", ⟨1, 4/5, "uptrend"⟩)]
    (List.Perm.swap (("Hour4", ⟨-1, 1/2, "downtrend"⟩) : String × TFResult)
      (("Min15", ⟨1, 4/5, "uptrend"⟩) : String × TFResult) [])

/-! ## C2: the confluence score and classification -/

/-- C2: for a non-empty per-timeframe mapping the confluence score is the
weight-normalized sum of `sign × strength × weight` whenever the total
weight is positive; a zero total weight degrades the score to 0 and the
verdict to HOLD instead of failing; the verdict is BUY iff the score
exceeds 0.3, SELL iff below -0.3, HOLD otherwise; and a timeframe missing
from the weight table receives the low default weight 0.1. -/
theorem C2_confluence_score_and_classification (tw : List (String × ℚ))
    (res : List (String × TFResult)) (_hne : res ≠ []) :
    (0 < totalWeight tw res →
      confluence_score tw res = totalScore tw res / totalWeight tw res) ∧
    (totalWeight tw res = 0 →
      confluence_score tw res = 0 ∧ final_signal tw res = "HOLD") ∧
    (final_signal tw res = "BUY" ↔ 3/10 < confluence_score tw res) ∧
    (final_signal tw res = "SELL" ↔ confluence_score tw res < -(3/10)) ∧
    (final_signal tw res = "HOLD" ↔ |confluence_score tw res| ≤ 3/10) ∧
    (∀ tf, alookup tw tf = none → weightOf tw tf = 1/10) := by
  refine ⟨?_, ?_, ?_, ?_, ?_, ?_⟩
  · intro hpos
    unfold confluence_score
    rw [if_pos hpos]
  · intro hzero
    have hcs : confluence_score tw res = 0 := by
      unfold confluence_score
      rw [hzero]
      norm_num
    refine ⟨hcs, ?_⟩
    unfold final_signal
    rw [hcs]
    norm_num
  · unfold final_signal
    split_ifs with h1 h2
    · simp [h1]
    · constructor
      · intro hh; exact absurd hh (by decide)
      · intro hh; exact absurd hh h1
    · constructor
      · intro hh; exact absurd hh (by decide)
      · intro hh; exact absurd hh h1
  · unfold final_signal
    split_ifs with h1 h2
    · constructor
      · intro hh; exact absurd hh (by decide)
      · intro hh; exfalso; linarith
    · simp [h2]
    · constructor
      · intro hh; exact absurd hh (by decide)
      · intro hh; exact absurd hh h2
  · rw [abs_le]
    unfold final_signal
    split_ifs with h1 h2
    · constructor
      · intro hh; exact absurd hh (by decide)
      · intro hh; exfalso; linarith [hh.2]
    · constructor
      · intro hh; exact absurd hh (by decide)
      · intro hh; exfalso; linarith [hh.1]
    · simp only [not_lt] at h1 h2
      constructor
      · intro _; exact ⟨by linarith, h1⟩
      · intro _; rfl
  · intro tf htf
    unfold weightOf
    rw [htf]
    rfl

/-- Witness for C2: the spec scenario of three timeframes all BUY with
strength 0.8 under weights 0.2/0.3/0.5. -/
theorem C2_confluence_score_and_classification_witness :
    (0 < totalWeight [("Min15", 1/5), ("Hour1", 3/10), ("Hour4", 1/2)]
        [("Min15", ⟨1, 4/5, "uptrend"⟩), ("Hour1", ⟨1, 4/5, "uptrend"⟩),
          ("Hour4", ⟨1, 4/5, "uptrend"⟩)] →
      confluence_score [("Min15", 1/5), ("Hour1", 3/10), ("Hour4", 1/2)]
          [("Min15", ⟨1, 4/5, "uptrend"⟩), ("Hour1", ⟨1, 4/5, "uptrend"⟩),
            ("Hour4", ⟨1, 4/5, "uptrend"⟩)] =
        totalScore [("Min15", 1/5), ("Hour1", 3/10), ("Hour4", 1/2)]
            [("Min15", ⟨1, 4/5, "uptrend"⟩), ("Hour1", ⟨1, 4/5, "uptrend"⟩),
              ("Hour4", ⟨1, 4/5, "uptrend"⟩)] /
          totalWeight [("Min15", 1/5), ("Hour1", 3/10), ("Hour4", 1/2)]
            [("Min15", ⟨1, 4/5, "uptrend"⟩), ("Hour1", ⟨1, 4/5, "uptrend"⟩),
              ("Hour4", ⟨1, 4/5, "uptrend"⟩)]) ∧
    (totalWeight [("Min15", 1/5), ("Hour1", 3/10), ("Hour4", 1/2)]
        [("Min15", ⟨1, 4/5, "uptrend"⟩), ("Hour1", ⟨1, 4/5, "uptrend"⟩),
          ("Hour4", ⟨1, 4/5, "uptrend"⟩)] = 0 →
      confluence_score [("Min15", 1/5), ("Hour1", 3/10), ("Hour4", 1/2)]
          [("Min15", ⟨1, 4/5, "uptrend"⟩), ("Hour1", ⟨1, 4/5, "uptrend"⟩),
            ("Hour4", ⟨1, 4/5, "uptrend"⟩)] = 0 ∧
      final_signal [("Min15", 1/5), ("Hour1", 3/10), ("Hour4", 1/2)]
          [("Min15", ⟨1, 4/5, "uptrend"⟩), ("Hour1", ⟨1, 4/5, "uptrend"⟩),
            ("Hour4", ⟨1, 4/5, "uptrend"⟩)] = "HOLD") ∧
    (final_signal [("Min15", 1/5), ("Hour1", 3/10), ("Hour4", 1/2)]
        [("Min15", ⟨1, 4/5, "uptrend"⟩), ("Hour1", ⟨1, 4/5, "uptrend"⟩),
          ("Hour4", ⟨1, 4/5, "uptrend"⟩)] = "BUY" ↔
      3/10 < confluence_score [("Min15", 1/5), ("Hour1", 3/10), ("Hour4", 1/2)]
        [("Min15", ⟨1, 4/5, "uptrend"⟩), ("Hour1", ⟨1, 4/5, "uptrend"⟩),
          ("Hour4", ⟨1, 4/5, "uptrend"⟩)]) ∧
    (final_signal [("Min15", 1/5), ("Hour1", 3/10), ("Hour4", 1/2)]
        [("Min15", ⟨1, 4/5, "uptrend"⟩), ("Hour1", ⟨1, 4/5, "uptrend"⟩),
          ("Hour4", ⟨1, 4/5, "uptrend"⟩)] = "SELL" ↔
      confluence_score [("Min15", 1/5), ("Hour1", 3/10), ("Hour4", 1/2)]
        [("Min15", ⟨1, 4/5, "uptrend"⟩), ("Hour1", ⟨1, 4/5, "uptrend"⟩),
          ("Hour4", ⟨1, 4/5, "uptrend"⟩)] < -(3/10)) ∧
    (final_signal [("Min15", 1/5), ("Hour1", 3/10), ("Hour4", 1/2)]
        [("Min15", ⟨1, 4/5, "uptrend"⟩), ("Hour1", ⟨1, 4/5, "uptrend"⟩),
          ("Hour4", ⟨1, 4/5, "uptrend"⟩)] = "HOLD" ↔
      |confluence_score [("Min15", 1/5), ("Hour1", 3/10), ("Hour4", 1/2)]
        [("Min15", ⟨1, 4/5, "uptrend"⟩), ("Hour1", ⟨1, 4/5, "uptrend"⟩),
          ("Hour4", ⟨1, 4/5, "uptrend"⟩)]| ≤ 3/10) ∧
    (∀ tf, alookup [("Min15", (1:ℚ)/5), ("Hour1", 3/10), ("Hour4", 1/2)] tf = none →
      weightOf [("Min15", 1/5), ("Hour1", 3/10), ("Hour4", 1/2)] tf = 1/10) :=
  C2_confluence_score_and_classification
    [("Min15", 1/5), ("Hour1", 3/10), ("Hour4", 1/2)]
    [("Min15", ⟨1, 4/5, "uptrend"⟩), ("Hour1", ⟨1, 4/5, "uptrend"⟩),
      ("Hour4", ⟨1, 4/5, "uptrend"⟩)] (by decide)

/-! ## C5: trend consensus.  The fold underneath Python
`max(iterable, key=...)` keeps the earliest element on ties of the key, so
the result is determined by the iteration order of `set(trends)`, which is
hash-layout dependent — not the first-encountered order of `trends`. -/

theorem pyMax_foldl_mem (trends : List String) (x : String) (xs : List String) :
    xs.foldl (fun best y => if trends.count best < trends.count y then y else best) x
      ∈ x :: xs := by
  induction xs generalizing x with
  | nil => simp
  | cons y t ih =>
      simp only [List.foldl_cons]
      have h := ih (if trends.count x < trends.count y then y else x)
      rcases List.mem_cons.mp h with h1 | h1
      · rw [h1]
        split_ifs <;> simp
      · simp [h1]

theorem pyMax_foldl_count_ge (trends : List String) (x : String) (xs : List String) :
    ∀ z ∈ x :: xs, trends.count z ≤ trends.count
      (xs.foldl (fun best y => if trends.count best < trends.count y then y else best) x) := by
  induction xs generalizing x with
  | nil =>
      intro z hz
      simp only [List.mem_singleton] at hz
      subst hz
      simp
  | cons y t ih =>
      intro z hz
      simp only [List.foldl_cons]
      have hhead : trends.count (if trends.count x < trends.count y then y else x) ≤
          trends.count (t.foldl (fun best z => if trends.count best < trends.count z then z
            else best) (if trends.count x < trends.count y then y else x)) :=
        ih _ _ (List.mem_cons_self _ _)
      rcases List.mem_cons.mp hz with rfl | hz1
      · refine le_trans ?_ hhead
        split_ifs with hc
        · exact le_of_lt hc
        · exact le_rfl
      · rcases List.mem_cons.mp hz1 with rfl | hz2
        · refine le_trans ?_ hhead
          split_ifs with hc
          · exact le_rfl
          · exact not_lt.mp hc
        · exact ih _ _ (List.mem_cons_of_mem _ hz2)

/-- C5 (amended): for every non-empty mapping and every duplicate-free
enumeration `order` of the distinct trend labels (the iteration order of the
Python set), the trend consensus is a label of maximal frequency among the
analyzed timeframes — the tie-break follows the set iteration order, not the
first-encountered order — and the trend agreement is the consensus label's
frequency over the number of timeframes analyzed, `0` when none. -/
theorem C5_trend_consensus_amended (res : List (String × TFResult)) (order : List String)
    (_hnd : order.Nodup)
    (h1 : ∀ t ∈ order, t ∈ trendsOf res)
    (h2 : ∀ t ∈ trendsOf res, t ∈ order)
    (hne : res ≠ []) :
    (trend_consensus order (trendsOf res) ∈ trendsOf res) ∧
    (∀ t ∈ trendsOf res,
      (trendsOf res).count t ≤ (trendsOf res).count (trend_consensus order (trendsOf res))) ∧
    (trend_agreement order (trendsOf res) =
      ((trendsOf res).count (trend_consensus order (trendsOf res)) : ℚ) /
        (trendsOf res).length) ∧
    (∀ o : List String, trend_agreement o ([] : List String) = 0) := by
  have htne : trendsOf res ≠ [] := by
    cases res with
    | nil => exact absurd rfl hne
    | cons p t => simp [trendsOf]
  have hemp : (trendsOf res).isEmpty = false := by
    cases ht : trendsOf res with
    | nil => exact absurd ht htne
    | cons a t => rfl
  obtain ⟨t0, ht0⟩ := List.exists_mem_of_ne_nil _ htne
  have hone : order ≠ [] := List.ne_nil_of_mem (h2 t0 ht0)
  obtain ⟨x, xs, rfl⟩ : ∃ x xs, order = x :: xs := by
    cases order with
    | nil => exact absurd rfl hone
    | cons x xs => exact ⟨x, xs, rfl⟩
  have hcons : trend_consensus (x :: xs) (trendsOf res) =
      xs.foldl (fun best y => if (trendsOf res).count best < (trendsOf res).count y then y
        else best) x := by
    unfold trend_consensus
    rw [hemp]
    rfl
  refine ⟨?_, ?_, ?_, ?_⟩
  · rw [hcons]
    exact h1 _ (pyMax_foldl_mem (trendsOf res) x xs)
  · intro t ht
    rw [hcons]
    exact pyMax_foldl_count_ge (trendsOf res) x xs t (h2 t ht)
  · unfold trend_agreement
    rw [hemp]
    rfl
  · intro o
    rfl

/-- Witness for C5 (amended) on a concrete two-timeframe mapping with a
unanimous label. -/
theorem C5_trend_consensus_amended_witness :
    (trend_consensus ["uptrend"]
      (trendsOf [("Min15", ⟨1, 1/2, "uptrend"⟩), ("Hour1", ⟨1, 1/2, "uptrend"⟩)]) ∈
        trendsOf [("Min15", ⟨1, 1/2, "uptrend"⟩), ("Hour1", ⟨1, 1/2, "uptrend"⟩)]) ∧
    (∀ t ∈ trendsOf [("Min15", ⟨1, 1/2, "uptrend"⟩), ("Hour1", ⟨1, 1/2, "uptrend"⟩)],
      (trendsOf [("Min15", ⟨1, 1/2, "uptrend"⟩), ("Hour1", ⟨1, 1/2, "uptrend"⟩)]).count t ≤
        (trendsOf [("Min15", ⟨1, 1/2, "uptrend"⟩), ("Hour1", ⟨1, 1/2, "uptrend"⟩)]).count
          (trend_consensus ["uptrend"]
            (trendsOf [("Min15", ⟨1, 1/2, "uptrend"⟩), ("Hour1", ⟨1, 1/2, "uptrend"⟩)]))) ∧
    (trend_agreement ["uptrend"]
        (trendsOf [("Min15", ⟨1, 1/2, "uptrend"⟩), ("Hour1", ⟨1, 1/2, "uptrend"⟩)]) =
      ((trendsOf [("Min15", ⟨1, 1/2, "uptrend"⟩), ("Hour1", ⟨1, 1/2, "uptrend"⟩)]).count
          (trend_consensus ["uptrend"]
            (trendsOf [("Min15", ⟨1, 1/2, "uptrend"⟩), ("Hour1", ⟨1, 1/2, "uptrend"⟩)])) : ℚ) /
        (trendsOf [("Min15", ⟨1, 1/2, "uptrend"⟩), ("Hour1", ⟨1, 1/2, "uptrend"⟩)]).length) ∧
    (∀ o : List String, trend_agreement o ([] : List String) = 0) :=
  C5_trend_consensus_amended
    [("Min15", ⟨1, 1/2, "uptrend"⟩), ("Hour1", ⟨1, 1/2, "uptrend"⟩)] ["uptrend"]
    (by decide) (by decide) (by decide) (by decide)

/-- C5 counterexample: with labels `["uptrend", "downtrend"]` tied at one
occurrence each, the enumeration `["downtrend", "uptrend"]` is a valid
duplicate-free enumeration of the set of labels, yet the code's consensus
under it is `"downtrend"` while the first-encountered tie-break demanded by
the claim yields `"uptrend"`. -/
theorem C5_tie_break_counterexample :
    (["downtrend", "uptrend"] : List String).Nodup ∧
    (∀ t ∈ (["downtrend", "uptrend"] : List String),
      t ∈ trendsOf [("Min15", ⟨1, 1/2, "uptrend"⟩), ("Hour4", ⟨-1, 1/2, "downtrend"⟩)]) ∧
    (∀ t ∈ trendsOf [("Min15", ⟨1, 1/2, "uptrend"⟩), ("Hour4", ⟨-1, 1/2, "downtrend"⟩)],
      t ∈ (["downtrend", "uptrend"] : List String)) ∧
    trend_consensus ["downtrend", "uptrend"]
      (trendsOf [("Min15", ⟨1, 1/2, "uptrend"⟩), ("Hour4", ⟨-1, 1/2, "downtrend"⟩)]) =
        "downtrend" ∧
    specTrendConsensus
      (trendsOf [("Min15", ⟨1, 1/2, "uptrend"⟩), ("Hour4", ⟨-1, 1/2, "downtrend"⟩)]) =
        "uptrend" ∧
    trend_consensus ["downtrend", "uptrend"]
        (trendsOf [("Min15", ⟨1, 1/2, "uptrend"⟩), ("Hour4", ⟨-1, 1/2, "downtrend"⟩)]) ≠
      specTrendConsensus
        (trendsOf [("Min15", ⟨1, 1/2, "uptrend"⟩), ("Hour4", ⟨-1, 1/2, "downtrend"⟩)]) := by
  refine ⟨by decide, by decide, by decide, ?_, ?_, ?_⟩ <;>
    simp [trend_consensus, trendsOf, specTrendConsensus, pyMaxByCount, List.count, List.foldl]

/-! ## C4: the spec scenario row -/

/-- The C4 scenario frame: two rows, a confirmed MACD bullish cross on the
second row (`MACD 0 ≤ 1 = MACDs` before, `2 > 1` now), `EMA_20 = 105 >
EMA_50 = 100`, `ADX_14 = 30`, `RSI_14 = 72` (previous 60). -/
def c4df : DataFrame :=
  ⟨2, [("close", Col.nums [some 100, some 100]),
       ("MACD_12_26_9", Col.nums [some 0, some 2]),
       ("MACDs_12_26_9", Col.nums [some 1, some 1]),
       ("EMA_20", Col.nums [some 105, some 105]),
       ("EMA_50", Col.nums [some 100, some 100]),
       ("ADX_14", Col.nums [some 30, some 30]),
       ("RSI_14", Col.nums [some 60, some 72])]⟩

theorem c4_trend : trendScore (scoredBase c4df false) 1 = 7/2 := by
  simp only [trendScore]
  norm_num [show hasCol (scoredBase c4df false) "MACD_12_26_9" = true from by decide,
    show hasCol (scoredBase c4df false) "MACDs_12_26_9" = true from by decide,
    show hasCol (scoredBase c4df false) "EMA_20" = true from by decide,
    show hasCol (scoredBase c4df false) "EMA_50" = true from by decide,
    show hasCol (scoredBase c4df false) "ADX_14" = true from by decide,
    show hasCol (scoredBase c4df false) "PSARl_0.02_0.2" = false from by decide,
    show oGT (numAt (scoredBase c4df false) "MACD_12_26_9" 1)
      (numAt (scoredBase c4df false) "MACDs_12_26_9" 1) = true from by decide,
    show oLE (shiftAt (scoredBase c4df false) "MACD_12_26_9" 1 1)
      (shiftAt (scoredBase c4df false) "MACDs_12_26_9" 1 1) = true from by decide,
    show oLT (numAt (scoredBase c4df false) "MACD_12_26_9" 1)
      (numAt (scoredBase c4df false) "MACDs_12_26_9" 1) = false from by decide,
    show oGE (shiftAt (scoredBase c4df false) "MACD_12_26_9" 1 1)
      (shiftAt (scoredBase c4df false) "MACDs_12_26_9" 1 1) = false from by decide,
    show oGT (numAt (scoredBase c4df false) "EMA_20" 1)
      (numAt (scoredBase c4df false) "EMA_50" 1) = true from by decide,
    show oLT (numAt (scoredBase c4df false) "EMA_20" 1)
      (numAt (scoredBase c4df false) "EMA_50" 1) = false from by decide,
    show oGT (numAt (scoredBase c4df false) "ADX_14" 1) (some 25) = true from by decide,
    bi]

theorem c4_momentum : momentumScore (scoredBase c4df false) 1 = -2 := by
  simp only [momentumScore]
  norm_num [show hasCol (scoredBase c4df false) "RSI_14" = true from by decide,
    show hasCol (scoredBase c4df false) "WILLR_14" = false from by decide,
    show hasCol (scoredBase c4df false) "CCI_14_0.015" = false from by decide,
    show oLT (numAt (scoredBase c4df false) "RSI_14" 1) (some 30) = false from by decide,
    show oGT (numAt (scoredBase c4df false) "RSI_14" 1) (some 70) = true from by decide,
    show oGT (numAt (scoredBase c4df false) "RSI_14" 1) (some 50) = true from by decide,
    show oLE (shiftAt (scoredBase c4df false) "RSI_14" 1 1) (some 50) = false from by decide,
    show oLT (numAt (scoredBase c4df false) "RSI_14" 1) (some 50) = false from by decide,
    show oGE (shiftAt (scoredBase c4df false) "RSI_14" 1 1) (some 50) = true from by decide,
    bi]

theorem c4_volume : volumeScore (scoredBase c4df false) 1 = 0 := by
  simp only [volumeScore]
  norm_num [show hasCol (scoredBase c4df false) "OBV" = false from by decide,
    show hasCol (scoredBase c4df false) "MFI_14" = false from by decide]

theorem c4_volatility : volatilityScore (scoredBase c4df false) 1 = 0 := by
  simp only [volatilityScore]
  rw [show findColStarting (scoredBase c4df false) "BBL_" = none from by decide,
    show findColStarting (scoredBase c4df false) "BBU_" = none from by decide]
  norm_num [show hasCol (scoredBase c4df false) "KCLe_20_2" = false from by decide]

theorem c4_final :
    finalScore defaultWeights false (scoredBase c4df false) 1 = 11/20 := by
  unfold finalScore
  rw [c4_trend, c4_momentum, c4_volume, c4_volatility]
  norm_num [priceActionScore, defaultWeights]

/-- C4 counterexample: on the scenario row the weighted total is
`3.5 × 0.30 − 2 × 0.25 = 0.55`, not (even approximately) the claimed
`2.5 × 0.30 − 2 × 0.25 = 0.25` — the trend score the claim itself breaks
down (EMA +1, ADX +0.5, MACD +2) sums to 3.5, not 2.5. -/
theorem C4_weighted_total_counterexample :
    finalScore defaultWeights false (scoredBase c4df false) 1 = 11/20 ∧
    finalScore defaultWeights false (scoredBase c4df false) 1 ≠ 1/4 ∧
    1/4 < |finalScore defaultWeights false (scoredBase c4df false) 1 - 1/4| := by
  refine ⟨c4_final, ?_, ?_⟩
  · rw [c4_final]
    norm_num
  · rw [c4_final, show (11:ℚ)/20 - 1/4 = 3/10 by norm_num,
      abs_of_pos (by norm_num : (0:ℚ) < 3/10)]
    norm_num

/-- C4 (amended): on the scenario row the trend score is 3.5 (≥ 2.5; EMA +1,
ADX +0.5, MACD +2), the momentum score is −2 (≤ 0; RSI overbought), the
weighted total is `3.5 × 0.30 − 2 × 0.25 = 0.55`, below the threshold 1.5,
and the direction is HOLD. -/
theorem C4_scenario_hold :
    trendScore (scoredBase c4df false) 1 = 7/2 ∧
    (5/2 : ℚ) ≤ trendScore (scoredBase c4df false) 1 ∧
    momentumScore (scoredBase c4df false) 1 = -2 ∧
    momentumScore (scoredBase c4df false) 1 ≤ 0 ∧
    finalScore defaultWeights false (scoredBase c4df false) 1 =
      (7/2) * (3/10) + (-2) * (1/4) ∧
    finalScore defaultWeights false (scoredBase c4df false) 1 = 11/20 ∧
    finalScore defaultWeights false (scoredBase c4df false) 1 < signalThreshold ∧
    sigAt (generate_signals c4df false defaultWeights) 1 = some 0 := by
  have hsig := sigAt_generate_signals c4df false defaultWeights 1 (by norm_num [c4df])
  refine ⟨c4_trend, by rw [c4_trend]; norm_num, c4_momentum, by rw [c4_momentum]; norm_num,
    by rw [c4_final]; norm_num, c4_final, by rw [c4_final]; norm_num [signalThreshold], ?_⟩
  rw [hsig, c4_final]
  norm_num [signalOf, signalThreshold]

/-! ## C9: `generate_signals` never mutates the caller's frame -/

theorem concat_getD {α : Type} (l : List α) (a d : α) (i : ℕ) (hi : i = l.length) :
    (l ++ [a]).getD i d = a := by
  subst hi
  induction l with
  | nil => rfl
  | cons x t ih => simpa [List.getD] using ih

theorem concat_set {α : Type} (l : List α) (a b : α) (i : ℕ) (hi : i = l.length) :
    (l ++ [a]).set i b = l ++ [b] := by
  subst hi
  induction l with
  | nil => rfl
  | cons x t ih => simpa [List.set] using ih

theorem gsHeap_false_eq (h : List DataFrame) (inRef : ℕ) (w : Weights) :
    generateSignalsHeap h inRef false w =
      (h ++ [generate_signals (h.getD inRef emptyDF) false w], h.length) := by
  unfold generateSignalsHeap writeAt
  simp only [Bool.false_eq_true, if_false]
  simp only [concat_getD, concat_set, List.length_append, List.length_set,
    List.length_cons, List.length_nil, Nat.add_sub_cancel]
  unfold generate_signals scoredBase detectChain
  simp

theorem gsHeap_true_eq (h : List DataFrame) (inRef : ℕ) (w : Weights) :
    generateSignalsHeap h inRef true w =
      (h ++ [initCols (h.getD inRef emptyDF),
        detect_candlestick_patterns (initCols (h.getD inRef emptyDF)),
        detect_support_resistance (detect_candlestick_patterns (initCols (h.getD inRef emptyDF))),
        generate_signals (h.getD inRef emptyDF) true w],
       h.length + 3) := by
  unfold generateSignalsHeap writeAt
  simp only [if_true]
  simp only [concat_getD, concat_set, List.length_append, List.length_set,
    List.length_cons, List.length_nil, Nat.add_sub_cancel]
  unfold generate_signals scoredBase detectChain
  simp [List.append_assoc]

theorem hasCol_finalCols (d : DataFrame) (w : Weights) (usePA : Bool) :
    hasCol (finalCols w usePA d) "signal" = true ∧
    hasCol (finalCols w usePA d) "signal_strength" = true ∧
    hasCol (finalCols w usePA d) "signal_reason" = true ∧
    hasCol (finalCols w usePA d) "signal_components" = true := by
  unfold finalCols hasCol
  refine ⟨?_, ?_, ?_, ?_⟩ <;>
    simp only [col_setCol_ne _ _ _ _ (by decide : ("signal" : String) ≠ "signal_reason"),
      col_setCol_ne _ _ _ _ (by decide : ("signal" : String) ≠ "signal_components"),
      col_setCol_ne _ _ _ _ (by decide : ("signal" : String) ≠ "signal_strength"),
      col_setCol_ne _ _ _ _ (by decide : ("signal_strength" : String) ≠ "signal_reason"),
      col_setCol_ne _ _ _ _ (by decide : ("signal_strength" : String) ≠ "signal_components"),
      col_setCol_ne _ _ _ _ (by decide : ("signal_components" : String) ≠ "signal_reason"),
      col_setCol_self, Option.isSome_some]

/-- C9: at the heap level, `generate_signals` leaves every pre-existing
object — in particular the caller's input frame — untouched: its writes all
target the fresh copy (and the fresh frames returned by the price-action
helpers), the returned reference is a new allocation distinct from the
input reference, the returned object equals the pure result, and the four
signal columns exist on the returned frame (hence only there when the input
lacked them). -/
theorem C9_no_input_mutation (h : List DataFrame) (inRef : ℕ) (usePA : Bool)
    (w : Weights) (hin : inRef < h.length) :
    ((generateSignalsHeap h inRef usePA w).1.get? inRef = h.get? inRef) ∧
    (∀ j, j < h.length → (generateSignalsHeap h inRef usePA w).1.get? j = h.get? j) ∧
    (h.length ≤ (generateSignalsHeap h inRef usePA w).2) ∧
    ((generateSignalsHeap h inRef usePA w).2 ≠ inRef) ∧
    ((generateSignalsHeap h inRef usePA w).1.getD (generateSignalsHeap h inRef usePA w).2
        emptyDF = generate_signals (h.getD inRef emptyDF) usePA w) ∧
    (hasCol (generate_signals (h.getD inRef emptyDF) usePA w) "signal" = true ∧
      hasCol (generate_signals (h.getD inRef emptyDF) usePA w) "signal_strength" = true ∧
      hasCol (generate_signals (h.getD inRef emptyDF) usePA w) "signal_reason" = true ∧
      hasCol (generate_signals (h.getD inRef emptyDF) usePA w) "signal_components" = true) := by
  have hcols : hasCol (generate_signals (h.getD inRef emptyDF) usePA w) "signal" = true ∧
      hasCol (generate_signals (h.getD inRef emptyDF) usePA w) "signal_strength" = true ∧
      hasCol (generate_signals (h.getD inRef emptyDF) usePA w) "signal_reason" = true ∧
      hasCol (generate_signals (h.getD inRef emptyDF) usePA w) "signal_components" = true := by
    unfold generate_signals
    exact hasCol_finalCols _ _ _
  cases usePA with
  | false =>
      rw [gsHeap_false_eq]
      refine ⟨List.get?_append hin, ?_, le_rfl, by omega, ?_, hcols⟩
      · intro j hj
        exact List.get?_append hj
      · exact concat_getD _ _ _ _ rfl
  | true =>
      rw [gsHeap_true_eq]
      refine ⟨?_, ?_, by omega, by omega, ?_, hcols⟩
      · exact List.get?_append hin
      · intro j hj
        exact List.get?_append hj
      · rw [List.getD_append_right _ _ _ _ (by omega : h.length ≤ h.length + 3)]
        simp

/-- Witness for C9 on a one-frame heap. -/
theorem C9_no_input_mutation_witness :
    (generateSignalsHeap [emptyDF] 0 false defaultWeights).2 ≠ 0 :=
  (C9_no_input_mutation [emptyDF] 0 false defaultWeights (by decide)).2.2.2.1

end TradingX
